import Mathlib

/-!
Shallow embedding of the trust-gated wallet core of the repository
(`src/server/models/Wallet.js`, `src/server/repositories/TrustRepository.js`)
and verification of the specification's claims about it.

Database state is explicit: a `DB` value holds the three tables (wallets,
entity_trust, transfer).  Each JS method of the `Wallet` class becomes a Lean
function taking the acting wallet's id (`this._id`) and the current `DB`;
methods that can throw return `Except JsErr _`, and mutating methods also
return the updated `DB`.
-/

set_option linter.unusedVariables false

deriving instance DecidableEq for Except

/-- Errors a JS operation can surface: `HttpError code message` models the
repository's `HttpError` class (`utils/HttpError`); `ExpectFailure` models a
failed `expect-runtime` assertion (including `expect.fail()`), which is not an
`HttpError`; `OtherError` models any other thrown exception (e.g. from the
persistence layer). -/
inductive JsErr where
  | HttpError (code : Nat) (message : String)
  | ExpectFailure
  | OtherError (message : String)
deriving DecidableEq, Repr

/-- A row of the wallet table: id, display name, stored credential hash
(`password`) and `salt`, as read by `WalletRepository.getById` /
`Wallet.toJSON`. -/
structure WalletRecord where
  id : Nat
  name : String
  password : String
  salt : String
deriving DecidableEq, Repr

/-- A row of the `wallets.entity_trust` table.  The `type` column is modelled
as `Option String`: `Wallet.js` reads `trustRelationship.type` in the
duplicate-request scan, but no code under src/ ever writes a `type` field
(`requestTrustFromAWallet` writes `request_type`), and the spec's data model
for TrustRelationship lists no `type` attribute, so records created by this
core carry `none` there. -/
structure TrustRecord where
  id : Nat
  request_type : String
  actor_entity_id : Nat
  originator_entity_id : Nat
  target_entity_id : Nat
  state : String
  type : Option String
deriving DecidableEq, Repr

/-- A row of the transfer table, as created and mutated by the transfer
operations of `Wallet.js`. -/
structure TransferRecord where
  id : Nat
  originator_entity_id : Nat
  source_entity_id : Nat
  destination_entity_id : Nat
  state : String
deriving DecidableEq, Repr

/-- The persistent state: the three tables plus the next serial id each of the
two mutable tables will assign on insert. -/
structure DB where
  wallets : List WalletRecord
  trusts : List TrustRecord
  transfers : List TransferRecord
  nextTrustId : Nat
  nextTransferId : Nat
deriving DecidableEq, Repr

/-- Modelled from the spec: the enumerated trust request types
(`TrustRelationship.ENTITY_TRUST_REQUEST_TYPE`, a file of this repository not
under src/).  The spec names the `send` type ("permission-to-send", and
`transfer` uses `ENTITY_TRUST_REQUEST_TYPE.send`); we model the enumeration as
the closed key set containing it. -/
def ENTITY_TRUST_REQUEST_TYPE : List String := ["send"]

/-- Modelled from the spec: the value of the `send` key of
`ENTITY_TRUST_REQUEST_TYPE`, used by `transfer`. -/
def ENTITY_TRUST_REQUEST_TYPE.send : String := "send"

/-- Trust relationship state constants
(`TrustRelationship.ENTITY_TRUST_STATE_TYPE`), with the spellings used at the
call sites in `Wallet.js` and in the spec's state enumeration. -/
def ENTITY_TRUST_STATE_TYPE.requested : String := "requested"

def ENTITY_TRUST_STATE_TYPE.trusted : String := "trusted"

def ENTITY_TRUST_STATE_TYPE.canceled_by_target : String := "canceled_by_target"

def ENTITY_TRUST_STATE_TYPE.cancelled_by_originator : String := "cancelled_by_originator"

/-- Transfer state constants (`Transfer.STATE`), with the spellings used at
the call sites in `Wallet.js` and in the spec's state enumeration. -/
def Transfer.STATE.pending : String := "pending"

def Transfer.STATE.requested : String := "requested"

def Transfer.STATE.completed : String := "completed"

def Transfer.STATE.cancelled : String := "cancelled"

/-- `TrustRepository.getByOriginatorId`: rows of `wallets.entity_trust` with
the given `originator_entity_id`. -/
def TrustRepository.getByOriginatorId (db : DB) (id : Nat) : List TrustRecord :=
  db.trusts.filter (fun t => t.originator_entity_id == id)

/-- `TrustRepository.getByTargetId`: rows with the given `target_entity_id`. -/
def TrustRepository.getByTargetId (db : DB) (id : Nat) : List TrustRecord :=
  db.trusts.filter (fun t => t.target_entity_id == id)

/-- `TrustRepository.getTrustedByOriginatorId`: rows with the given
`originator_entity_id` and state `trusted`. -/
def TrustRepository.getTrustedByOriginatorId (db : DB) (id : Nat) : List TrustRecord :=
  db.trusts.filter (fun t =>
    t.originator_entity_id == id && t.state == ENTITY_TRUST_STATE_TYPE.trusted)

/-- The fields `requestTrustFromAWallet` passes to `trustRepository.create`. -/
structure TrustCreateRequest where
  request_type : String
  actor_entity_id : Nat
  originator_entity_id : Nat
  target_entity_id : Nat
deriving DecidableEq, Repr

/-- `TrustRepository.create`: inserts the row and returns the inserted row
(the source re-selects the row with the highest id).  The id comes from the
table's serial sequence; the `state` default `requested` and the absent `type`
come from the schema, which is not under src/ and is modelled from the spec
("initial state `requested`", no `type` attribute in the data model). -/
def TrustRepository.create (db : DB) (req : TrustCreateRequest) : TrustRecord × DB :=
  let row : TrustRecord :=
    { id := db.nextTrustId
      request_type := req.request_type
      actor_entity_id := req.actor_entity_id
      originator_entity_id := req.originator_entity_id
      target_entity_id := req.target_entity_id
      state := ENTITY_TRUST_STATE_TYPE.requested
      type := none }
  (row, { db with trusts := db.trusts ++ [row], nextTrustId := db.nextTrustId + 1 })

/-- `TrustRepository.update`: full-record replace of the row with the same id
(`update(trustObject).where("id", trustObject.id)`). -/
def TrustRepository.update (db : DB) (r : TrustRecord) : DB :=
  { db with trusts := db.trusts.map (fun x => if x.id == r.id then r else x) }

/-- Modelled from the spec: `BaseRepository.getById` for the trust store (not
under src/); looks up the row by id. -/
def TrustRepository.getById (db : DB) (id : Nat) : Option TrustRecord :=
  db.trusts.find? (fun t => t.id == id)

/-- Modelled from the spec: `WalletRepository.getById` (not under src/);
`getById(id) → WalletRecord|NotFound`. -/
def WalletRepository.getById (db : DB) (id : Nat) : Option WalletRecord :=
  db.wallets.find? (fun w => w.id == id)

/-- Modelled from the spec: `WalletService.getByName` (not under src/);
resolves a wallet by display name, failing with `NotFound` if none exists. -/
def WalletService.getByName (db : DB) (name : String) : Except JsErr WalletRecord :=
  match db.wallets.find? (fun w => w.name == name) with
  | some w => .ok w
  | none => .error (JsErr.HttpError 404 "Can not found wallet by name")

/-- The fields `transfer` passes to `transferRepository.create`. -/
structure TransferCreateRequest where
  originator_entity_id : Nat
  source_entity_id : Nat
  destination_entity_id : Nat
  state : String
deriving DecidableEq, Repr

/-- Modelled from the spec: `TransferRepository.create` (not under src/);
`create(record) → record-with-id`, id from the serial sequence. -/
def TransferRepository.create (db : DB) (req : TransferCreateRequest) :
    TransferRecord × DB :=
  let row : TransferRecord :=
    { id := db.nextTransferId
      originator_entity_id := req.originator_entity_id
      source_entity_id := req.source_entity_id
      destination_entity_id := req.destination_entity_id
      state := req.state }
  (row, { db with transfers := db.transfers ++ [row],
                  nextTransferId := db.nextTransferId + 1 })

/-- Modelled from the spec: `TransferRepository.getById` (not under src/). -/
def TransferRepository.getById (db : DB) (id : Nat) : Option TransferRecord :=
  db.transfers.find? (fun t => t.id == id)

/-- Modelled from the spec: `TransferRepository.update` (not under src/);
full-record replace of the row with the same id. -/
def TransferRepository.update (db : DB) (r : TransferRecord) : DB :=
  { db with transfers := db.transfers.map (fun x => if x.id == r.id then r else x) }

/-- The value `authorize` returns on success: an object holding only the
wallet id. -/
structure AuthedId where
  id : Nat
deriving DecidableEq, Repr

/-- `Wallet.hasControlOver`: true iff the given wallet is the acting wallet
itself (`wallet.getId() === this._id`); the sub-wallet branch is a stub
returning false. -/
def Wallet.hasControlOver (self : Nat) (wallet : Nat) : Bool :=
  wallet == self

/-- `Wallet.getTrustRelationshipsRequested`: all trust relationships the
acting wallet originated. -/
def Wallet.getTrustRelationshipsRequested (self : Nat) (db : DB) : List TrustRecord :=
  TrustRepository.getByOriginatorId db self

/-- `Wallet.getTrustRelationshipsTargeted`: all trust relationships targeted
at the acting wallet. -/
def Wallet.getTrustRelationshipsTargeted (self : Nat) (db : DB) : List TrustRecord :=
  TrustRepository.getByTargetId db self

/-- `Wallet.getTrustRelationshipsTrusted`: the acting wallet's own trusted
relationships (originated by it, state `trusted`). -/
def Wallet.getTrustRelationshipsTrusted (self : Nat) (db : DB) : List TrustRecord :=
  TrustRepository.getTrustedByOriginatorId db self

/-- `Wallet.authorize`: reject a falsy password with 400, look the wallet up
(`toJSON`), compare the keyed hash of the supplied password (computed by the
external HMAC-SHA512 primitive, passed here as the function `hmacSha512`)
against the stored hash, reject a mismatch with 401, and on success return an
object holding only the wallet id.  The missing-wallet branch of the lookup is
modelled from the spec as `NotFound`. -/
def Wallet.authorize (hmacSha512 : String → String → String) (self : Nat)
    (password : String) (db : DB) : Except JsErr AuthedId :=
  if password = "" then
    .error (JsErr.HttpError 400 "Error: Invalid credential format")
  else
    match WalletRepository.getById db self with
    | none => .error (JsErr.HttpError 404 "Wallet not found")
    | some walletObject =>
      let hash := hmacSha512 password walletObject.salt
      if hash ≠ walletObject.password then
        .error (JsErr.HttpError 401 "Invalid credentials")
      else
        .ok { id := walletObject.id }

/-- The `.some(...)` duplicate scan of `requestTrustFromAWallet`, with the
`expect` assertions its callback runs on each visited record: the callback
requires `trustRelationship.type` to be defined (it is not on records this
core creates) and compares that `type` field — not `request_type` — and the
target against the new request. -/
def Wallet.requestTrustScan (requestType : String) (targetId : Nat) :
    List TrustRecord → Except JsErr Bool
  | [] => .ok false
  | r :: rest =>
    match r.type with
    | none => .error JsErr.ExpectFailure
    | some ty =>
      if ty == requestType && r.target_entity_id == targetId then .ok true
      else Wallet.requestTrustScan requestType targetId rest

/-- `Wallet.checkTrustRequestSentToMe`: the target wallet's veto hook; the
source is an empty stub that always passes. -/
def Wallet.checkTrustRequestSentToMe (self : Nat) (requestType : String)
    (sourceWalletId : Nat) : Except JsErr Unit :=
  .ok ()

/-- `Wallet.requestTrustFromAWallet`: validate the request type and the target
wallet name, resolve the target by name, run the duplicate scan over the
relationships the acting wallet requested (403 on a detected duplicate), ask
the target's veto hook, then create the relationship. -/
def Wallet.requestTrustFromAWallet (self : Nat)
    (requestType targetWalletName : String) (db : DB) :
    Except JsErr TrustRecord × DB :=
  if requestType ∉ ENTITY_TRUST_REQUEST_TYPE then
    (.error (JsErr.HttpError 400 "The trust request type must be one of send"), db)
  else if (targetWalletName.data.any (fun c => !c.isWhitespace)) = false then
    (.error (JsErr.HttpError 400 "Invalid wallet name"), db)
  else
    match WalletService.getByName db targetWalletName with
    | .error e => (.error e, db)
    | .ok targetWallet =>
      match Wallet.requestTrustScan requestType targetWallet.id
          (Wallet.getTrustRelationshipsRequested self db) with
      | .error e => (.error e, db)
      | .ok true =>
        (.error (JsErr.HttpError 403 "The trust requested has existed"), db)
      | .ok false =>
        match Wallet.checkTrustRequestSentToMe targetWallet.id requestType self with
        | .error e => (.error e, db)
        | .ok _ =>
          let (result, dbAfter) := TrustRepository.create db
            { request_type := requestType
              actor_entity_id := self
              originator_entity_id := self
              target_entity_id := targetWallet.id }
          (.ok result, dbAfter)

/-- The `reduce` lookup `acceptTrustRequestSentToMe` and
`declineTrustRequestSentToMe` run over the targeted relationships: keep the
last element whose id matches, starting from `undefined`. -/
def Wallet.reduceById (trustRelationshipId : Nat) (l : List TrustRecord) :
    Option TrustRecord :=
  l.foldl (fun a c => if c.id == trustRelationshipId then some c else a) none

/-- `Wallet.acceptTrustRequestSentToMe`: find the relationship among those
targeted at the acting wallet (403 if absent), set its state to `trusted` and
update it.  No check of the relationship's current state is made. -/
def Wallet.acceptTrustRequestSentToMe (self : Nat) (trustRelationshipId : Nat)
    (db : DB) : Except JsErr Unit × DB :=
  match Wallet.reduceById trustRelationshipId
      (Wallet.getTrustRelationshipsTargeted self db) with
  | none =>
    (.error (JsErr.HttpError 403 "Have no permission to accept this relationship"), db)
  | some trustRelationship =>
    (.ok (), TrustRepository.update db
      { trustRelationship with state := ENTITY_TRUST_STATE_TYPE.trusted })

/-- `Wallet.declineTrustRequestSentToMe`: find the relationship among those
targeted at the acting wallet (403 if absent), set its state to
`canceled_by_target` and update it.  No check of the current state is made. -/
def Wallet.declineTrustRequestSentToMe (self : Nat) (trustRelationshipId : Nat)
    (db : DB) : Except JsErr Unit × DB :=
  match Wallet.reduceById trustRelationshipId
      (Wallet.getTrustRelationshipsTargeted self db) with
  | none =>
    (.error (JsErr.HttpError 403 "Have no permission to decline this relationship"), db)
  | some trustRelationship =>
    (.ok (), TrustRepository.update db
      { trustRelationship with state := ENTITY_TRUST_STATE_TYPE.canceled_by_target })

/-- `Wallet.cancelTrustRequestSentToMe`: load the relationship by id (the
missing-id branch is modelled from the spec as `NotFound`), require the acting
wallet to be its originator (403 otherwise), set its state to
`cancelled_by_originator` and update it.  No check of the current state is
made. -/
def Wallet.cancelTrustRequestSentToMe (self : Nat) (trustRelationshipId : Nat)
    (db : DB) : Except JsErr Unit × DB :=
  match TrustRepository.getById db trustRelationshipId with
  | none => (.error (JsErr.HttpError 404 "Trust relationship not found"), db)
  | some trustRelationship =>
    if trustRelationship.originator_entity_id ≠ self then
      (.error (JsErr.HttpError 403 "Have no permission to cancel this relationship"), db)
    else
      (.ok (), TrustRepository.update db
        { trustRelationship with
            state := ENTITY_TRUST_STATE_TYPE.cancelled_by_originator })

/-- `Wallet.checkTrust`: `expect` the trust type to be an enumerated request
type (an `expect-runtime` failure otherwise, not an `HttpError`), then scan
the acting wallet's own trusted relationships for one whose actor, target and
request type match; succeed silently if found, fail with 403 otherwise. -/
def Wallet.checkTrust (self : Nat) (trustType : String)
    (sourceWallet targetWallet : Nat) (db : DB) : Except JsErr Unit :=
  if trustType ∉ ENTITY_TRUST_REQUEST_TYPE then .error JsErr.ExpectFailure
  else if (Wallet.getTrustRelationshipsTrusted self db).any (fun t =>
      t.actor_entity_id == sourceWallet && t.target_entity_id == targetWallet &&
      t.request_type == trustType) then
    .ok ()
  else
    .error (JsErr.HttpError 403 "Have no permission to do this action")

/-- The guard of `transfer`'s catch clause:
`e instanceof HttpError && e.code === 403`. -/
def JsErr.isForbidden : JsErr → Bool
  | JsErr.HttpError 403 _ => true
  | _ => false

/-- The catch clause of `Wallet.transfer`, applied to the error `e` raised by
the trust check: on `Forbidden`, fall back to the control-based disposition
(create a `pending` transfer and signal 202 when the sender is under control,
create a `requested` transfer and signal 202 when the receiver is, and hit the
`expect.fail()` stub otherwise); re-raise every other error unchanged. -/
def Wallet.transferCatch (self sender receiver : Nat) (e : JsErr) (db : DB) :
    Except JsErr Unit × DB :=
  if e.isForbidden then
    if Wallet.hasControlOver self sender then
      let (_, dbAfter) := TransferRepository.create db
        { originator_entity_id := self
          source_entity_id := sender
          destination_entity_id := receiver
          state := Transfer.STATE.pending }
      (.error (JsErr.HttpError 202 "No trust, saved"), dbAfter)
    else if Wallet.hasControlOver self receiver then
      let (_, dbAfter) := TransferRepository.create db
        { originator_entity_id := self
          source_entity_id := sender
          destination_entity_id := receiver
          state := Transfer.STATE.requested }
      (.error (JsErr.HttpError 202 "No trust, saved"), dbAfter)
    else
      (.error JsErr.ExpectFailure, db)
  else
    (.error e, db)

/-- `Wallet.transfer`: run the trust check for the `send` type between sender
and receiver; on success return with no state change, on an error run the
catch clause `Wallet.transferCatch`.  The `tokens` argument is unused by the
source. -/
def Wallet.transfer (self : Nat) (sender receiver : Nat) (tokens : List Nat)
    (db : DB) : Except JsErr Unit × DB :=
  match Wallet.checkTrust self ENTITY_TRUST_REQUEST_TYPE.send sender receiver db with
  | .ok _ => (.ok (), db)
  | .error e => Wallet.transferCatch self sender receiver e db

/-- Modelled from the spec: `TransferRepository.getPendingTransfers` (not
under src/); all transfers addressed to the wallet with state `pending`. -/
def Wallet.getPendingTransfers (self : Nat) (db : DB) : List TransferRecord :=
  db.transfers.filter (fun t =>
    t.destination_entity_id == self && t.state == Transfer.STATE.pending)

/-- `Wallet.acceptTransfer`: load the transfer by id and unconditionally set
its state to `completed` — the privilege check is a `TODO` stub and no state
precondition is applied.  The missing-id branch is modelled from the spec as
`NotFound`. -/
def Wallet.acceptTransfer (self : Nat) (transferId : Nat) (db : DB) :
    Except JsErr Unit × DB :=
  match TransferRepository.getById db transferId with
  | none => (.error (JsErr.HttpError 404 "Transfer not found"), db)
  | some t =>
    (.ok (), TransferRepository.update db { t with state := Transfer.STATE.completed })

/-- `Wallet.declineTransfer`: load the transfer by id and unconditionally set
its state to `cancelled` — the privilege check is a `TODO` stub and no state
precondition is applied. -/
def Wallet.declineTransfer (self : Nat) (transferId : Nat) (db : DB) :
    Except JsErr Unit × DB :=
  match TransferRepository.getById db transferId with
  | none => (.error (JsErr.HttpError 404 "Transfer not found"), db)
  | some t =>
    (.ok (), TransferRepository.update db { t with state := Transfer.STATE.cancelled })

/-- `Wallet.cancelTransfer`: load the transfer by id and unconditionally set
its state to `cancelled` — the privilege check is a `TODO` stub and no state
precondition is applied. -/
def Wallet.cancelTransfer (self : Nat) (transferId : Nat) (db : DB) :
    Except JsErr Unit × DB :=
  match TransferRepository.getById db transferId with
  | none => (.error (JsErr.HttpError 404 "Transfer not found"), db)
  | some t =>
    (.ok (), TransferRepository.update db { t with state := Transfer.STATE.cancelled })

/-- `Wallet.fulfillTransfer`: load the transfer by id, require the acting
wallet to be its source (403 otherwise) and its state to be `requested` (403
otherwise), then set its state to `completed`. -/
def Wallet.fulfillTransfer (self : Nat) (transferId : Nat) (db : DB) :
    Except JsErr Unit × DB :=
  match TransferRepository.getById db transferId with
  | none => (.error (JsErr.HttpError 404 "Transfer not found"), db)
  | some t =>
    if t.source_entity_id ≠ self then
      (.error (JsErr.HttpError 403 "Have no permission to do this operation"), db)
    else if t.state ≠ Transfer.STATE.requested then
      (.error (JsErr.HttpError 403 "Operation forbidden, the transfer state is wrong"), db)
    else
      (.ok (), TransferRepository.update db { t with state := Transfer.STATE.completed })

/-- `Wallet.getTransfers`: all transfers, filtered by state when one is
given; no wallet-identity scoping is applied. -/
def Wallet.getTransfers (self : Nat) (state : Option String) (db : DB) :
    List TransferRecord :=
  match state with
  | some s => db.transfers.filter (fun t => t.state == s)
  | none => db.transfers

/-- An empty database. -/
def dbEmpty : DB :=
  { wallets := [], trusts := [], transfers := [], nextTrustId := 1, nextTransferId := 1 }

/-- Wallets 1 ("alice") and 2 ("bob"), and one trust relationship (id 1)
originated by wallet 1, actor 1, target 2, in the terminal state `trusted`. -/
def dbTrusted : DB :=
  { wallets := [{ id := 1, name := "alice", password := "h1", salt := "s1" },
                { id := 2, name := "bob", password := "h2", salt := "s2" }]
    trusts := [{ id := 1, request_type := "send", actor_entity_id := 1,
                 originator_entity_id := 1, target_entity_id := 2,
                 state := "trusted", type := none }]
    transfers := []
    nextTrustId := 2
    nextTransferId := 1 }

/-- Wallets 1 ("alice") and 2 ("bob") with no trust relationships and no
transfers. -/
def dbTwoWallets : DB :=
  { wallets := [{ id := 1, name := "alice", password := "h1", salt := "s1" },
                { id := 2, name := "bob", password := "h2", salt := "s2" }]
    trusts := []
    transfers := []
    nextTrustId := 1
    nextTransferId := 1 }

/-- The trust relationship created by wallet 1 requesting `send` trust from
"bob" (wallet 2) in `dbTwoWallets`. -/
def recFirstRequest : TrustRecord :=
  { id := 1, request_type := "send", actor_entity_id := 1,
    originator_entity_id := 1, target_entity_id := 2,
    state := "requested", type := none }

/-- The database after wallet 1 successfully requests `send` trust from
"bob" (wallet 2) starting from `dbTwoWallets`. -/
def dbAfterFirstRequest : DB :=
  { dbTwoWallets with trusts := [recFirstRequest], nextTrustId := 2 }

/-- A transfer in state `requested` from wallet 1 to wallet 2. -/
def recT1 : TransferRecord :=
  { id := 1, originator_entity_id := 1, source_entity_id := 1,
    destination_entity_id := 2, state := "requested" }

/-- A transfer in the terminal state `cancelled` from wallet 3 to wallet 4. -/
def recT2 : TransferRecord :=
  { id := 2, originator_entity_id := 3, source_entity_id := 3,
    destination_entity_id := 4, state := "cancelled" }

/-- Two transfers: `recT1` (state `requested`) and `recT2` (state
`cancelled`). -/
def dbTransfers : DB :=
  { wallets := []
    trusts := []
    transfers := [recT1, recT2]
    nextTrustId := 1
    nextTransferId := 3 }

/-- One wallet whose stored hash is the concatenation of password "pw" and
salt "salt", matching the concrete keyed-hash function used in the
`authorize` witness. -/
def dbAuth : DB :=
  { wallets := [{ id := 1, name := "alice", password := "pwsalt", salt := "salt" }]
    trusts := []
    transfers := []
    nextTrustId := 1
    nextTransferId := 1 }

/-- The `reduce` lookup finds nothing exactly when no record in the list has
the sought id. -/
theorem reduceById_eq_none (rid : Nat) (l : List TrustRecord) :
    Wallet.reduceById rid l = none ↔ ∀ r ∈ l, r.id ≠ rid := by
  unfold Wallet.reduceById
  suffices h : ∀ a : Option TrustRecord,
      l.foldl (fun a c => if c.id == rid then some c else a) a = none ↔
        a = none ∧ ∀ r ∈ l, r.id ≠ rid by
    simpa using h none
  induction l with
  | nil => intro a; simp
  | cons c rest ih =>
    intro a
    simp only [List.foldl_cons, ih, List.mem_cons]
    by_cases hc : c.id = rid
    · simp [hc]
    · simp only [hc, beq_iff_eq, if_neg hc]
      constructor
      · rintro ⟨ha, hrest⟩
        exact ⟨ha, fun r hr => by
          rcases hr with rfl | hr
          · exact hc
          · exact hrest r hr⟩
      · rintro ⟨ha, hall⟩
        exact ⟨ha, fun r hr => hall r (Or.inr hr)⟩

/-- C1: when the acting wallet's trust check for (send, sender, receiver)
fails with `Forbidden` and the acting wallet has control over the sender,
`transfer` appends exactly one Transfer record — originator the acting
wallet, source the sender, destination the receiver, state `pending` — and
signals the deferred-accepted 202 outcome (`HttpError 202`, distinct from
both `.ok` and a 4xx/5xx hard error), leaving everything else unchanged. -/
theorem transfer_noTrust_senderControlled_pending (self sender receiver : Nat)
    (tokens : List Nat) (db : DB) (m : String)
    (hchk : Wallet.checkTrust self ENTITY_TRUST_REQUEST_TYPE.send sender receiver db =
      .error (JsErr.HttpError 403 m))
    (hctl : Wallet.hasControlOver self sender = true) :
    Wallet.transfer self sender receiver tokens db =
      (.error (JsErr.HttpError 202 "No trust, saved"),
       { db with
           transfers := db.transfers ++
             [{ id := db.nextTransferId, originator_entity_id := self,
                source_entity_id := sender, destination_entity_id := receiver,
                state := Transfer.STATE.pending }],
           nextTransferId := db.nextTransferId + 1 }) := by
  unfold Wallet.transfer
  rw [hchk]
  unfold Wallet.transferCatch
  simp [JsErr.isForbidden, hctl, TransferRepository.create]

/-- Witness for C1: in the empty database the trust check fails with 403,
wallet 1 controls the sender (itself), and `transfer` records exactly one
pending transfer from 1 to 2 and signals 202. -/
theorem transfer_noTrust_senderControlled_pending_witness :
    Wallet.checkTrust 1 ENTITY_TRUST_REQUEST_TYPE.send 1 2 dbEmpty =
      .error (JsErr.HttpError 403 "Have no permission to do this action") ∧
    Wallet.hasControlOver 1 1 = true ∧
    Wallet.transfer 1 1 2 [] dbEmpty =
      (.error (JsErr.HttpError 202 "No trust, saved"),
       { dbEmpty with
           transfers := [{ id := 1, originator_entity_id := 1,
                           source_entity_id := 1, destination_entity_id := 2,
                           state := Transfer.STATE.pending }],
           nextTransferId := 2 }) :=
  ⟨by decide, by decide,
   transfer_noTrust_senderControlled_pending 1 1 2 [] dbEmpty
     "Have no permission to do this action" (by decide) (by decide)⟩

/-- C8: the catch clause of `transfer` re-raises every error that is not an
`HttpError` with code 403 unchanged, touching no state; only the `Forbidden`
outcome triggers the control-based fallback. -/
theorem transferCatch_propagates_non_forbidden (self sender receiver : Nat)
    (e : JsErr) (db : DB) (h : e.isForbidden = false) :
    Wallet.transferCatch self sender receiver e db = (.error e, db) := by
  simp [Wallet.transferCatch, h]

/-- Witness for C8: a non-`HttpError` exception from the trust check (here a
persistence failure) is re-raised unchanged by the catch clause. -/
theorem transferCatch_propagates_non_forbidden_witness :
    (JsErr.OtherError "database down").isForbidden = false ∧
    Wallet.transferCatch 1 1 2 (JsErr.OtherError "database down") dbEmpty =
      (.error (JsErr.OtherError "database down"), dbEmpty) :=
  ⟨by decide,
   transferCatch_propagates_non_forbidden 1 1 2 (JsErr.OtherError "database down")
     dbEmpty (by decide)⟩

/-- C2: `checkTrust` succeeds exactly when the acting wallet's own trusted
relationships (originator the acting wallet, state `trusted`) contain one
whose actor is the source, whose target is the target, and whose request
type matches; for a valid request type every failure is the `Forbidden`
(403) error. -/
theorem checkTrust_iff_matching_trusted (self : Nat) (rt : String)
    (src tgt : Nat) (db : DB) (hrt : rt ∈ ENTITY_TRUST_REQUEST_TYPE) :
    (Wallet.checkTrust self rt src tgt db = .ok () ↔
      ∃ r ∈ db.trusts, r.originator_entity_id = self ∧
        r.state = ENTITY_TRUST_STATE_TYPE.trusted ∧ r.actor_entity_id = src ∧
        r.target_entity_id = tgt ∧ r.request_type = rt) ∧
    (∀ e, Wallet.checkTrust self rt src tgt db = .error e →
      e = JsErr.HttpError 403 "Have no permission to do this action") := by
  have key : ((Wallet.getTrustRelationshipsTrusted self db).any (fun t =>
      t.actor_entity_id == src && t.target_entity_id == tgt &&
      t.request_type == rt) = true) ↔
      ∃ r ∈ db.trusts, r.originator_entity_id = self ∧
        r.state = ENTITY_TRUST_STATE_TYPE.trusted ∧ r.actor_entity_id = src ∧
        r.target_entity_id = tgt ∧ r.request_type = rt := by
    simp only [Wallet.getTrustRelationshipsTrusted,
      TrustRepository.getTrustedByOriginatorId, List.any_eq_true,
      List.mem_filter, Bool.and_eq_true, beq_iff_eq]
    constructor
    · rintro ⟨r, ⟨hr, ho, hs⟩, ⟨ha, htg⟩, hq⟩
      exact ⟨r, hr, ho, hs, ha, htg, hq⟩
    · rintro ⟨r, hr, ho, hs, ha, htg, hq⟩
      exact ⟨r, ⟨hr, ho, hs⟩, ⟨ha, htg⟩, hq⟩
  unfold Wallet.checkTrust
  rw [if_neg (not_not_intro hrt)]
  by_cases hany : (Wallet.getTrustRelationshipsTrusted self db).any (fun t =>
      t.actor_entity_id == src && t.target_entity_id == tgt &&
      t.request_type == rt) = true
  · rw [if_pos hany]
    refine ⟨iff_of_true rfl (key.mp hany), fun e he => ?_⟩
    simp at he
  · rw [if_neg hany]
    refine ⟨iff_of_false (by simp) (fun hex => hany (key.mpr hex)), fun e he => ?_⟩
    injection he with h
    exact h.symm

/-- Witness for C2: wallet 1 holds the trusted (send, actor 1, target 2)
relationship in `dbTrusted`, so its trust check for that triple succeeds. -/
theorem checkTrust_iff_matching_trusted_witness :
    "send" ∈ ENTITY_TRUST_REQUEST_TYPE ∧
    Wallet.checkTrust 1 "send" 1 2 dbTrusted = .ok () :=
  ⟨by decide,
   (checkTrust_iff_matching_trusted 1 "send" 1 2 dbTrusted (by decide)).1.mpr
     ⟨{ id := 1, request_type := "send", actor_entity_id := 1,
        originator_entity_id := 1, target_entity_id := 2,
        state := "trusted", type := none }, by decide⟩⟩

/-- C3 (code bug): terminal trust-relationship states are not enforced: in
`dbTrusted` the relationship is already `trusted` (terminal), yet a further
`acceptTrustRequestSentToMe` by the target succeeds instead of being
rejected, and `cancelTrustRequestSentToMe` by the originator moves the
relationship out of the terminal state to `cancelled_by_originator`. -/
theorem trust_terminal_state_not_monotonic :
    (Wallet.acceptTrustRequestSentToMe 2 1 dbTrusted).1 = .ok () ∧
    Wallet.cancelTrustRequestSentToMe 1 1 dbTrusted =
      (.ok (),
       { dbTrusted with
           trusts := [{ id := 1, request_type := "send", actor_entity_id := 1,
                        originator_entity_id := 1, target_entity_id := 2,
                        state := ENTITY_TRUST_STATE_TYPE.cancelled_by_originator,
                        type := none }] }) := by
  decide

/-- C5 (code bug): the duplicate-request check never detects the record the
first call created, because the scan compares the `type` field while
`create` writes `request_type`: starting from `dbTwoWallets`, the first
request succeeds, and the second identical request does not fail with the
403 "The trust requested has existed" — it trips the scan's `expect` on the
absent `type` field of the created record. -/
theorem requestTrust_duplicate_not_forbidden :
    Wallet.requestTrustFromAWallet 1 "send" "bob" dbTwoWallets =
      (.ok recFirstRequest, dbAfterFirstRequest) ∧
    Wallet.requestTrustFromAWallet 1 "send" "bob" dbAfterFirstRequest =
      (.error JsErr.ExpectFailure, dbAfterFirstRequest) ∧
    JsErr.ExpectFailure ≠ JsErr.HttpError 403 "The trust requested has existed" := by
  decide

/-- C6: every successful `requestTrustFromAWallet` appends exactly one new
trust relationship, whose actor and originator are both the calling wallet,
whose target is the wallet resolved from the given name, and whose initial
state is `requested`. -/
theorem requestTrust_creates_single_requested (self : Nat)
    (requestType targetWalletName : String) (db : DB) (rec : TrustRecord)
    (dbAfter : DB)
    (h : Wallet.requestTrustFromAWallet self requestType targetWalletName db =
      (.ok rec, dbAfter)) :
    ∃ target : WalletRecord,
      WalletService.getByName db targetWalletName = .ok target ∧
      rec = { id := db.nextTrustId, request_type := requestType,
              actor_entity_id := self, originator_entity_id := self,
              target_entity_id := target.id,
              state := ENTITY_TRUST_STATE_TYPE.requested, type := none } ∧
      dbAfter = { db with
                  trusts := db.trusts ++ [rec],
                  nextTrustId := db.nextTrustId + 1 } := by
  unfold Wallet.requestTrustFromAWallet at h
  split at h
  · simp at h
  · split at h
    · simp at h
    · split at h
      · simp at h
      · rename_i targetWallet hname
        split at h
        · simp at h
        · simp at h
        · split at h
          · rename_i e hveto
            simp [Wallet.checkTrustRequestSentToMe] at hveto
          · simp only [TrustRepository.create, Prod.mk.injEq, Except.ok.injEq] at h
            obtain ⟨hrec, hdb⟩ := h
            exact ⟨targetWallet, hname, hrec.symm, by rw [← hdb, hrec]⟩

/-- Witness for C6: wallet 1's first request of `send` trust from "bob"
succeeds and creates exactly the single relationship `recFirstRequest` with
state `requested`. -/
theorem requestTrust_creates_single_requested_witness :
    Wallet.requestTrustFromAWallet 1 "send" "bob" dbTwoWallets =
      (.ok recFirstRequest, dbAfterFirstRequest) ∧
    (∃ target : WalletRecord,
      WalletService.getByName dbTwoWallets "bob" = .ok target ∧
      recFirstRequest = { id := dbTwoWallets.nextTrustId, request_type := "send",
                          actor_entity_id := 1, originator_entity_id := 1,
                          target_entity_id := target.id,
                          state := ENTITY_TRUST_STATE_TYPE.requested, type := none } ∧
      dbAfterFirstRequest =
        { dbTwoWallets with trusts := dbTwoWallets.trusts ++ [recFirstRequest],
                            nextTrustId := dbTwoWallets.nextTrustId + 1 }) :=
  ⟨by decide,
   requestTrust_creates_single_requested 1 "send" "bob" dbTwoWallets
     recFirstRequest dbAfterFirstRequest (by decide)⟩

/-- C7: accepting or declining a trust request fails with `Forbidden` exactly
when the relationship is not among those targeted at the caller, and
cancelling fails with `Forbidden` exactly when the caller is not the
relationship's originator. -/
theorem trustRequestOps_authorization (self rid : Nat) (db : DB) :
    ((∀ r ∈ db.trusts, r.target_entity_id = self → r.id ≠ rid) →
      Wallet.acceptTrustRequestSentToMe self rid db =
        (.error (JsErr.HttpError 403 "Have no permission to accept this relationship"), db)) ∧
    ((∃ r ∈ db.trusts, r.target_entity_id = self ∧ r.id = rid) →
      (Wallet.acceptTrustRequestSentToMe self rid db).1 = .ok ()) ∧
    ((∀ r ∈ db.trusts, r.target_entity_id = self → r.id ≠ rid) →
      Wallet.declineTrustRequestSentToMe self rid db =
        (.error (JsErr.HttpError 403 "Have no permission to decline this relationship"), db)) ∧
    ((∃ r ∈ db.trusts, r.target_entity_id = self ∧ r.id = rid) →
      (Wallet.declineTrustRequestSentToMe self rid db).1 = .ok ()) ∧
    (∀ t, TrustRepository.getById db rid = some t → t.originator_entity_id ≠ self →
      Wallet.cancelTrustRequestSentToMe self rid db =
        (.error (JsErr.HttpError 403 "Have no permission to cancel this relationship"), db)) ∧
    (∀ t, TrustRepository.getById db rid = some t → t.originator_entity_id = self →
      (Wallet.cancelTrustRequestSentToMe self rid db).1 = .ok ()) := by
  have hmem : ∀ r : TrustRecord,
      r ∈ Wallet.getTrustRelationshipsTargeted self db ↔
        r ∈ db.trusts ∧ r.target_entity_id = self := by
    intro r
    simp [Wallet.getTrustRelationshipsTargeted, TrustRepository.getByTargetId,
      List.mem_filter]
  refine ⟨fun hall => ?_, fun hex => ?_, fun hall => ?_, fun hex => ?_,
    fun t ht hor => ?_, fun t ht hor => ?_⟩
  · have hnone : Wallet.reduceById rid (Wallet.getTrustRelationshipsTargeted self db) = none :=
      (reduceById_eq_none rid _).mpr (fun r hr =>
        hall r ((hmem r).mp hr).1 ((hmem r).mp hr).2)
    unfold Wallet.acceptTrustRequestSentToMe
    rw [hnone]
  · obtain ⟨r, hr, htg, hid⟩ := hex
    have hne : Wallet.reduceById rid (Wallet.getTrustRelationshipsTargeted self db) ≠ none := by
      intro hnone
      exact (reduceById_eq_none rid _).mp hnone r ((hmem r).mpr ⟨hr, htg⟩) hid
    obtain ⟨t, hts⟩ := Option.ne_none_iff_exists'.mp hne
    unfold Wallet.acceptTrustRequestSentToMe
    rw [hts]
  · have hnone : Wallet.reduceById rid (Wallet.getTrustRelationshipsTargeted self db) = none :=
      (reduceById_eq_none rid _).mpr (fun r hr =>
        hall r ((hmem r).mp hr).1 ((hmem r).mp hr).2)
    unfold Wallet.declineTrustRequestSentToMe
    rw [hnone]
  · obtain ⟨r, hr, htg, hid⟩ := hex
    have hne : Wallet.reduceById rid (Wallet.getTrustRelationshipsTargeted self db) ≠ none := by
      intro hnone
      exact (reduceById_eq_none rid _).mp hnone r ((hmem r).mpr ⟨hr, htg⟩) hid
    obtain ⟨t, hts⟩ := Option.ne_none_iff_exists'.mp hne
    unfold Wallet.declineTrustRequestSentToMe
    rw [hts]
  · unfold Wallet.cancelTrustRequestSentToMe
    simp only [ht]
    rw [if_pos hor]
  · unfold Wallet.cancelTrustRequestSentToMe
    simp only [ht]
    rw [if_neg (not_not_intro hor)]

/-- Witness for C7: in `dbTrusted` (relationship id 1, originator 1, target
2), wallet 3 cannot accept it and wallet 2 cannot cancel it; both attempts
fail with 403. -/
theorem trustRequestOps_authorization_witness :
    Wallet.acceptTrustRequestSentToMe 3 1 dbTrusted =
      (.error (JsErr.HttpError 403 "Have no permission to accept this relationship"), dbTrusted) ∧
    Wallet.cancelTrustRequestSentToMe 2 1 dbTrusted =
      (.error (JsErr.HttpError 403 "Have no permission to cancel this relationship"), dbTrusted) :=
  ⟨(trustRequestOps_authorization 3 1 dbTrusted).1 (by decide),
   (trustRequestOps_authorization 2 1 dbTrusted).2.2.2.2.1
     { id := 1, request_type := "send", actor_entity_id := 1,
       originator_entity_id := 1, target_entity_id := 2,
       state := "trusted", type := none } (by decide) (by decide)⟩

/-- C4: `fulfillTransfer` fails with `Forbidden` when the caller is not the
transfer's source, fails with `Forbidden` when the state is not `requested`
even for the correct source, and moves the transfer to `completed` when both
preconditions hold. -/
theorem fulfillTransfer_requires_source_and_requested (self rid : Nat)
    (db : DB) (t : TransferRecord)
    (ht : TransferRepository.getById db rid = some t) :
    (t.source_entity_id ≠ self →
      Wallet.fulfillTransfer self rid db =
        (.error (JsErr.HttpError 403 "Have no permission to do this operation"), db)) ∧
    (t.source_entity_id = self → t.state ≠ Transfer.STATE.requested →
      Wallet.fulfillTransfer self rid db =
        (.error (JsErr.HttpError 403 "Operation forbidden, the transfer state is wrong"), db)) ∧
    (t.source_entity_id = self → t.state = Transfer.STATE.requested →
      Wallet.fulfillTransfer self rid db =
        (.ok (), TransferRepository.update db { t with state := Transfer.STATE.completed })) := by
  unfold Wallet.fulfillTransfer
  simp only [ht]
  refine ⟨fun hsrc => ?_, fun hsrc hst => ?_, fun hsrc hst => ?_⟩
  · rw [if_pos hsrc]
  · rw [if_neg (not_not_intro hsrc), if_pos hst]
  · rw [if_neg (not_not_intro hsrc), if_neg (not_not_intro hst)]

/-- Witness for C4: for the `requested` transfer `recT1` (source 1), wallet 9
is rejected with 403, and wallet 1 completes it. -/
theorem fulfillTransfer_requires_source_and_requested_witness :
    TransferRepository.getById dbTransfers 1 = some recT1 ∧
    Wallet.fulfillTransfer 9 1 dbTransfers =
      (.error (JsErr.HttpError 403 "Have no permission to do this operation"), dbTransfers) ∧
    Wallet.fulfillTransfer 1 1 dbTransfers =
      (.ok (), TransferRepository.update dbTransfers
        { recT1 with state := Transfer.STATE.completed }) :=
  ⟨by decide,
   (fulfillTransfer_requires_source_and_requested 9 1 dbTransfers recT1
     (by decide)).1 (by decide),
   (fulfillTransfer_requires_source_and_requested 1 1 dbTransfers recT1
     (by decide)).2.2 rfl rfl⟩

/-- C9: `authorize` rejects an empty/absent password with `InvalidInput`
(400); otherwise it applies the keyed hash (the external HMAC-SHA512
primitive, the parameter `hmacSha512`) to the supplied password with the
wallet's stored salt, rejects a mismatch with `Unauthorized` (401), and on a
match returns the object holding only the wallet id. -/
theorem authorize_keyed_hash (hmacSha512 : String → String → String)
    (self : Nat) (password : String) (db : DB) (w : WalletRecord)
    (hw : WalletRepository.getById db self = some w) :
    (password = "" → Wallet.authorize hmacSha512 self password db =
      .error (JsErr.HttpError 400 "Error: Invalid credential format")) ∧
    (password ≠ "" → hmacSha512 password w.salt ≠ w.password →
      Wallet.authorize hmacSha512 self password db =
        .error (JsErr.HttpError 401 "Invalid credentials")) ∧
    (password ≠ "" → hmacSha512 password w.salt = w.password →
      Wallet.authorize hmacSha512 self password db = .ok { id := w.id }) := by
  unfold Wallet.authorize
  refine ⟨fun hp => ?_, fun hp hh => ?_, fun hp hh => ?_⟩
  · simp [hp]
  · simp [hp, hw, hh]
  · simp [hp, hw, hh]

/-- Witness for C9: with the concrete keyed hash "append" and a stored hash
"pwsalt" for salt "salt", password "pw" authenticates and yields only the
wallet id. -/
theorem authorize_keyed_hash_witness :
    WalletRepository.getById dbAuth 1 =
      some { id := 1, name := "alice", password := "pwsalt", salt := "salt" } ∧
    Wallet.authorize (fun p s => p ++ s) 1 "pw" dbAuth = .ok { id := 1 } :=
  ⟨by decide,
   (authorize_keyed_hash (fun p s => p ++ s) 1 "pw" dbAuth
     { id := 1, name := "alice", password := "pwsalt", salt := "salt" }
     (by decide)).2.2 (by decide) (by decide)⟩

/-- C10: `acceptTransfer`, `declineTransfer` and `cancelTransfer` perform no
authorization check and no state precondition: for every caller and every
existing transfer — whatever its current state, terminal included — accept
sets the state to `completed` and decline/cancel set it to `cancelled`. -/
theorem transferResolution_unconditional (self rid : Nat) (db : DB)
    (t : TransferRecord) (ht : TransferRepository.getById db rid = some t) :
    Wallet.acceptTransfer self rid db =
      (.ok (), TransferRepository.update db { t with state := Transfer.STATE.completed }) ∧
    Wallet.declineTransfer self rid db =
      (.ok (), TransferRepository.update db { t with state := Transfer.STATE.cancelled }) ∧
    Wallet.cancelTransfer self rid db =
      (.ok (), TransferRepository.update db { t with state := Transfer.STATE.cancelled }) := by
  unfold Wallet.acceptTransfer Wallet.declineTransfer Wallet.cancelTransfer
  rw [ht]
  exact ⟨rfl, rfl, rfl⟩

/-- Witness for C10: the already-`cancelled` transfer `recT2` is moved to
`completed` by `acceptTransfer` called by the unrelated wallet 99. -/
theorem transferResolution_unconditional_witness :
    TransferRepository.getById dbTransfers 2 = some recT2 ∧
    recT2.state = Transfer.STATE.cancelled ∧
    Wallet.acceptTransfer 99 2 dbTransfers =
      (.ok (), TransferRepository.update dbTransfers
        { recT2 with state := Transfer.STATE.completed }) :=
  ⟨by decide, by decide,
   (transferResolution_unconditional 99 2 dbTransfers recT2 (by decide)).1⟩
